import Mathlib

/-!
Shallow embedding of the optimization core of the syncnox backend
(request submission, the optimization worker pipeline, the OR-Tools
constraint configuration, result formatting and route persistence),
together with theorems settling the specification claims about it.

Each definition is translated from the named Python source file.
Python time-of-day values are embedded as explicit hour/minute/second
records, database tables as lists of row records, and the worker's
exception/commit structure as an explicit state-passing function.
-/

namespace Syncnox

/-- A wall-clock time of day, as carried by `team_member` and job rows.
`ConstraintBuilder._time_to_seconds` in
`app/services/optimization_engine/constraint_builder.py` reads the three
components. -/
structure TimeOfDay where
  hour : Nat
  minute : Nat
  second : Nat
  deriving DecidableEq, Repr

/-- Embeds `ConstraintBuilder._time_to_seconds` and `ResultFormatter._time_string_to_seconds`:
`t.hour * 3600 + t.minute * 60 + t.second`. -/
def timeToSeconds (t : TimeOfDay) : Nat :=
  t.hour * 3600 + t.minute * 60 + t.second

/-- Job status enum from `app/models/job.py`. -/
inductive JobStatus
  | draft
  | assigned
  | in_transit
  | completed
  deriving DecidableEq, Repr

/-- A row of the `job` table, restricted to the columns read or written by
`CRUDJob.bulk_update_assignments` in `app/crud/job.py`. -/
structure JobRow where
  id : Nat
  tenantId : Nat
  status : JobStatus
  assignedTo : Option Nat
  routeId : Option Nat
  deriving DecidableEq, Repr

/-- Embeds `CRUDJob.bulk_update_assignments` (`app/crud/job.py`, lines 181-223).
The method returns `0` unchanged when `job_ids` is empty, and otherwise runs a
single UPDATE filtered on `Job.id IN job_ids AND Job.tenant_id = tenant_id`
whose SET clause is `status := assigned` and
`assigned_to := CASE job_assignments WHEN value = Job.id` (a CASE with no ELSE
yields NULL for an id that is not a key of the mapping).  The statement has no
assignment to `route_id`, and the method signature has no `job_routes`
parameter.  Returns the number of matched rows and the updated table. -/
def bulkUpdateAssignments (table : List JobRow) (jobIds : List Nat)
    (jobAssignments : List (Nat × Nat)) (tenantId : Nat) : Nat × List JobRow :=
  if jobIds.isEmpty then (0, table)
  else
    let hit : JobRow → Bool := fun r => jobIds.contains r.id && r.tenantId == tenantId
    let updated := table.map fun r =>
      if hit r then
        { r with status := JobStatus.assigned,
                 assignedTo := jobAssignments.lookup r.id }
      else r
    ((table.filter hit).length, updated)

/-- One entry of the `stops` list of a formatted route, as produced by
`ResultFormatter.format` (`app/services/optimization_engine/result_formatter.py`):
the list holds a leading depot entry with `job_id = None`, one entry per served
job carrying its `job_id`, and a trailing depot entry with `job_id = None`.
Only the `job_id` field is consulted when stop rows are built. -/
structure FormattedStop where
  jobId : Option Nat
  deriving DecidableEq, Repr

/-- A `route_stop` row prepared by `RouteStorage.store_routes`
(`app/services/optimization_engine/route_storage.py`). -/
structure StopCreate where
  jobId : Option Nat
  stopType : String
  sequenceOrder : Nat
  deriving DecidableEq, Repr

/-- The stop-row list built by `RouteStorage.store_routes`
(`app/services/optimization_engine/route_storage.py`, lines 86-114):
first a `depot_start` row with `sequence_order = 0`; then, iterating
`enumerate(route_data["stops"], start=1)` over the formatted stop list, a
`job` row for each entry that carries a `job_id`, with `sequence_order` equal
to its 1-based enumeration position (entries without a `job_id` are skipped
but still consume enumeration positions); finally a `depot_end` row whose
`sequence_order` is `len(stops_create_data)` at the moment of appending. -/
def stopsCreateData (formattedStops : List FormattedStop) : List StopCreate :=
  let jobRows := (List.enumFrom 1 formattedStops).filterMap fun p =>
    match p.2.jobId with
    | some j => some { jobId := some j, stopType := "job", sequenceOrder := p.1 }
    | none => none
  let withStart : List StopCreate :=
    { jobId := none, stopType := "depot_start", sequenceOrder := 0 } :: jobRows
  withStart ++ [{ jobId := none, stopType := "depot_end", sequenceOrder := withStart.length }]

/-- The stop-sequence invariant as the specification states it: the
`sequence_order` values of a stored route form the contiguous sequence
`0..n-1` in order, position `0` is `depot_start`, position `n-1` is
`depot_end`, and every interior position is a `job` stop. -/
def specStopSequence (stops : List StopCreate) : Prop :=
  stops.map StopCreate.sequenceOrder = List.range stops.length ∧
  ∀ p ∈ stops.enum, p.2.stopType =
    if p.1 = 0 then "depot_start"
    else if p.1 = stops.length - 1 then "depot_end"
    else "job"

instance (stops : List StopCreate) : Decidable (specStopSequence stops) := by
  unfold specStopSequence
  exact instDecidableAnd

/-- Request lifecycle status from `app/models/optimization_request.py`. -/
inductive OptStatus
  | queued
  | processing
  | completed
  | failed
  deriving DecidableEq, Repr

/-- The state visible to the submitter: the `optimization_request` table
(request id paired with its status) and the Redis queue of request ids
(`OptimizationService` in `app/services/optimization.py`). -/
structure SubmitState where
  requests : List (Nat × OptStatus)
  queue : List Nat
  deriving DecidableEq, Repr

/-- Embeds `OptimizationService.create_optimization_request`
(`app/services/optimization.py`, lines 39-98): `crud.create` first inserts and
commits a row with `status = queued`; then, if the queue handle is unusable and
reconnecting to Redis fails, an HTTP 503 (`ServiceUnavailable`) is raised with
no compensating delete of the row just inserted; otherwise the request id is
enqueued and the row returned.  `queueReachable` abstracts whether Redis is
reachable during this call. -/
def createOptimizationRequest (queueReachable : Bool) (newId : Nat)
    (st : SubmitState) : Except Nat Nat × SubmitState :=
  let st1 : SubmitState := { st with requests := st.requests ++ [(newId, OptStatus.queued)] }
  if queueReachable then
    (Except.ok newId, { st1 with queue := st1.queue ++ [newId] })
  else
    (Except.error 503, st1)

/-- The three interchangeable routing provider implementations
(`geoapify_client.py`, `graphhopper_client.py`, `tomtom_client.py` under
`app/services/optimization_engine/`). -/
inductive Provider
  | geoapify
  | graphhopper
  | tomtom
  deriving DecidableEq, Repr

/-- Embeds `get_routing_client` (`app/services/optimization_engine/routing_client.py`,
lines 39-56): matches `settings.ROUTING_PROVIDER.lower()` against the three
provider names and falls back to Geoapify (with a warning) for any other
value.  The argument is the already lower-cased configuration string. -/
def getRoutingClient (providerLower : String) : Provider :=
  if providerLower = "geoapify" then Provider.geoapify
  else if providerLower = "graphhopper" then Provider.graphhopper
  else if providerLower = "tomtom" then Provider.tomtom
  else Provider.geoapify

/-- The matrix client constructed by `run_optimization_worker`
(`app/services/optimization.py`, lines 222-260): the worker imports
`GraphHopperClient` and instantiates it directly for the matrix computation;
the configured `ROUTING_PROVIDER` value is not consulted. -/
def workerMatrixClient (_routingProvider : String) : Provider :=
  Provider.graphhopper

/-- The client used for the polyline fetch in `ResultFormatter.format`
(`app/services/optimization_engine/result_formatter.py`, lines 146-160):
obtained through `get_routing_client()`. -/
def formatterPolylineClient (routingProvider : String) : Provider :=
  getRoutingClient routingProvider

/-- The fields of a job consulted by
`ResultFormatter._analyze_unassigned_reason`
(`app/services/optimization_engine/result_formatter.py`, lines 257-326).
Window bounds are wall-clock times; `serviceDuration` is in minutes. -/
structure JobView where
  timeWindowStart : Option TimeOfDay
  timeWindowEnd : Option TimeOfDay
  serviceDuration : Option Nat
  deriving DecidableEq, Repr

/-- The working-hour fields of a team member consulted by the
unassigned-reason heuristic. -/
structure TeamMemberView where
  workStartTime : Option TimeOfDay
  workEndTime : Option TimeOfDay
  deriving DecidableEq, Repr

/-- The `can_be_served_by_any` loop of check 1 in
`ResultFormatter._analyze_unassigned_reason`: some team member's
`[work_start, work_end]` overlaps the job's window
(`job_start < tm_end and job_end > tm_start`), a member without recorded
hours counting as available around the clock. -/
def canBeServedByAny (jobStartSec jobEndSec : Nat)
    (teamMembers : List TeamMemberView) : Bool :=
  teamMembers.any fun tm =>
    match tm.workStartTime, tm.workEndTime with
    | some ts, some te =>
        decide (jobStartSec < timeToSeconds te) && decide (jobEndSec > timeToSeconds ts)
    | _, _ => true

/-- The `can_fit_in_any_shift` loop of check 2 in
`ResultFormatter._analyze_unassigned_reason`: the service duration fits some
team member's shift (`service_duration_sec <= tm_end - tm_start`, computed
over the integers), a member without recorded hours counting as fitting. -/
def canFitInAnyShift (serviceDurationSec : Nat)
    (teamMembers : List TeamMemberView) : Bool :=
  teamMembers.any fun tm =>
    match tm.workStartTime, tm.workEndTime with
    | some ts, some te =>
        decide ((serviceDurationSec : Int) ≤
          (timeToSeconds te : Int) - (timeToSeconds ts : Int))
    | _, _ => true

/-- Embeds `ResultFormatter._analyze_unassigned_reason`
(`app/services/optimization_engine/result_formatter.py`, lines 257-326).
Check 1: if the job has both window bounds and no team member's working hours
overlap it, return the working-hours reason.  Check 2: if the service
duration is positive and fits no member's shift, return the f-string that
interpolates the duration.  Otherwise return the fallback reason.  (The
`job not found` branch is unreachable here: callers pass ids drawn from
`self.data.jobs`.) -/
def analyzeUnassignedReason (job : JobView) (teamMembers : List TeamMemberView) : String :=
  let windowBlocked : Bool :=
    match job.timeWindowStart, job.timeWindowEnd with
    | some ws, some we => !canBeServedByAny (timeToSeconds ws) (timeToSeconds we) teamMembers
    | _, _ => false
  if windowBlocked then
    "Time window is outside of all team member\x27s working hours"
  else
    let serviceDurationSec := (job.serviceDuration.getD 0) * 60
    if serviceDurationSec > 0 then
      if !canFitInAnyShift serviceDurationSec teamMembers then
        "Service duration (" ++ toString (job.serviceDuration.getD 0) ++
          " min) exceeds all team member\x27s shift lengths"
      else
        "Could not be visited within constraints"
    else
      "Could not be visited within constraints"

/-- Claim-side condition (spec wording): the job has a time window and it
overlaps no team member's `[work_start, work_end]` interval. -/
def windowOutsideAllWorkingHours (job : JobView) (teamMembers : List TeamMemberView) : Bool :=
  match job.timeWindowStart, job.timeWindowEnd with
  | some ws, some we => !canBeServedByAny (timeToSeconds ws) (timeToSeconds we) teamMembers
  | _, _ => false

/-- Claim-side condition (spec wording): the job's service duration is
positive and exceeds every team member's shift length. -/
def serviceExceedsAllShifts (job : JobView) (teamMembers : List TeamMemberView) : Bool :=
  decide ((job.serviceDuration.getD 0) * 60 > 0) &&
    !canFitInAnyShift ((job.serviceDuration.getD 0) * 60) teamMembers

/-- The break-related columns declared on the `TeamMember` ORM model
(`app/models/team_member.py`): `break_time_start` and `break_time_end` are
mapped columns.  No `break_duration` attribute is declared on the class --
only the Alembic migration `ad1b2a2993d6` adds that column to the database
table -- so evaluating `team_member.break_duration` on an instance raises
`AttributeError`. -/
structure TeamMemberBreak where
  breakTimeStart : Option TimeOfDay
  breakTimeEnd : Option TimeOfDay
  deriving DecidableEq, Repr

/-- The `AttributeError` raised by reading the undeclared `break_duration`
attribute on a `TeamMember` instance. -/
def breakDurationAttributeError : String :=
  "AttributeError: TeamMember object has no attribute break_duration"

/-- The Python expression `break_duration or 30`
(`constraint_builder.py`, line 166; `solver.py`, lines 455 and 540) applied
to the value of the `break_duration` database column: both `None` and `0` are
falsy, so either yields the 30-minute default.  In the current source this
expression is never evaluated -- the attribute read that feeds it raises
first (see `addBreakConstraint`). -/
def breakDurationOr30 (breakDuration : Option Nat) : Nat :=
  match breakDuration with
  | some d => if d = 0 then 30 else d
  | none => 30

/-- What lines 162-201 of `ConstraintBuilder.add_break_constraints` decide
for one team member: either the break window fields are not both set (no
constraint), or the duration does not fit the window and the break is skipped
with an error log, or a mandatory `FixedDurationIntervalVar` is registered
whose start ranges over `[earliestStart, latestStart]` with the given fixed
duration. -/
inductive BreakDecision
  | noBreakConfigured
  | skippedInvalidWindow
  | interval (earliestStart : Nat) (latestStart : Int) (durationSeconds : Nat)
  deriving DecidableEq, Repr

/-- Embeds lines 162-201 of `ConstraintBuilder.add_break_constraints`
(`app/services/optimization_engine/constraint_builder.py`), parameterized by
the value the `team_member.break_duration` read at line 166 would produce:
`break_duration_minutes = break_duration or 30`;
`latest_break_start = break_window_end - break_duration_seconds`; the break
is skipped when `latest_break_start < break_window_start`, and otherwise a
mandatory interval `[break_window_start, latest_break_start]` of the fixed
duration is added.  Against the current `TeamMember` model, line 166 raises
before this logic runs (see `addBreakConstraint`). -/
def addBreakConstraintBody (breakDurationColumn : Option Nat)
    (bs be : TimeOfDay) : BreakDecision :=
  let breakWindowStart := timeToSeconds bs
  let breakWindowEnd := timeToSeconds be
  let breakDurationSeconds := breakDurationOr30 breakDurationColumn * 60
  let latestBreakStart : Int := (breakWindowEnd : Int) - (breakDurationSeconds : Int)
  if latestBreakStart < (breakWindowStart : Int) then
    BreakDecision.skippedInvalidWindow
  else
    BreakDecision.interval breakWindowStart latestBreakStart breakDurationSeconds

/-- Embeds `ConstraintBuilder.add_break_constraints`
(`app/services/optimization_engine/constraint_builder.py`, lines 138-208) per
team member, as it executes against the `TeamMember` model: when both
`break_time_start` and `break_time_end` are set (line 158), line 166 reads
`team_member.break_duration` -- an attribute the model does not declare -- and
the resulting `AttributeError` propagates out of the uncaught constraint
build, so the interval/skip decision of `addBreakConstraintBody` is never
reached; when either field is missing, the member is passed over without a
break. -/
def addBreakConstraint (tm : TeamMemberBreak) : Except String BreakDecision :=
  match tm.breakTimeStart, tm.breakTimeEnd with
  | some _, some _ => Except.error breakDurationAttributeError
  | _, _ => Except.ok BreakDecision.noBreakConfigured

/-- The fields of the dictionary returned by `VRPSolver._extract_break_info`
that the claims mention (`app/services/optimization_engine/solver.py`). -/
structure BreakInfo where
  breakStartSeconds : Nat
  breakEndSeconds : Nat
  breakDurationMinutes : Nat
  deriving DecidableEq, Repr

/-- Embeds `VRPSolver._extract_break_info`
(`app/services/optimization_engine/solver.py`, lines 417-555), as it executes
against the `TeamMember` model.  Returns `None` unless both break window
fields are set (line 443).  With both set: when the time dimension holds
solved break intervals for the vehicle, the first interval's solved start and
end values yield `break_duration_minutes = (end - start) // 60` (lines
472-479, which read no team-member attribute); with no intervals, the
fallback at line 455 reads the undeclared `team_member.break_duration`, the
`AttributeError` is caught at line 537, and the handler rereads the same
attribute at line 540, so the `AttributeError` propagates out of the
method. -/
def extractBreakInfo (tm : TeamMemberBreak)
    (solvedBreakIntervals : List (Nat × Nat)) : Except String (Option BreakInfo) :=
  match tm.breakTimeStart, tm.breakTimeEnd with
  | some _, some _ =>
      match solvedBreakIntervals with
      | [] => Except.error breakDurationAttributeError
      | (s, e) :: _ => Except.ok (some ⟨s, e, (e - s) / 60⟩)
  | _, _ => Except.ok none

/-- Constant `TomTomClient.SYNC_LOCATION_THRESHOLD`
(`app/services/optimization_engine/tomtom_client.py`, line 24). -/
def SYNC_LOCATION_THRESHOLD : Nat := 14

/-- Constant `TomTomClient.POLL_INTERVAL_SECONDS` (`tomtom_client.py`, line 27). -/
def POLL_INTERVAL_SECONDS : Nat := 2

/-- Constant `TomTomClient.MAX_POLL_ATTEMPTS` (`tomtom_client.py`, line 28). -/
def MAX_POLL_ATTEMPTS : Nat := 60

/-- Which TomTom matrix endpoint a request uses. -/
inductive MatrixEndpoint
  | sync
  | async
  deriving DecidableEq, Repr

/-- Endpoint choice in `TomTomClient.get_matrix_for_optimization`
(`tomtom_client.py`, lines 260-276): `all_locations = [depot] + job_locations`
and the synchronous API is used iff
`len(all_locations) <= SYNC_LOCATION_THRESHOLD`. -/
def chooseMatrixEndpoint (numJobLocations : Nat) : MatrixEndpoint :=
  if 1 + numJobLocations ≤ SYNC_LOCATION_THRESHOLD then MatrixEndpoint.sync
  else MatrixEndpoint.async

/-- Status of an asynchronous TomTom matrix job as reported by one poll. -/
inductive PollState
  | completed
  | failed
  | running
  deriving DecidableEq, Repr

/-- Outcome of `TomTomClient._get_matrix_async` after the job submission:
`downloaded` records how many polls were made and how many seconds were spent
sleeping before the result download. -/
inductive AsyncOutcome
  | downloaded (pollsMade sleptSeconds : Nat)
  | jobFailed
  | timedOut
  deriving DecidableEq, Repr

/-- The polling loop of `TomTomClient._get_matrix_async`
(`tomtom_client.py`, lines 210-226): up to `MAX_POLL_ATTEMPTS` iterations,
each sleeping `POLL_INTERVAL_SECONDS` before reading the job state; `break`
to the result download on `Completed`, raise on `Failed`, continue otherwise;
the loop's `else` clause raises a timeout.  `states attempt` is the state the
service reports on the given (0-based) poll. -/
def pollUntilDone (states : Nat → PollState) (attempt : Nat) : AsyncOutcome :=
  if _h : attempt < MAX_POLL_ATTEMPTS then
    match states attempt with
    | PollState.completed =>
        AsyncOutcome.downloaded (attempt + 1) ((attempt + 1) * POLL_INTERVAL_SECONDS)
    | PollState.failed => AsyncOutcome.jobFailed
    | PollState.running => pollUntilDone states (attempt + 1)
  else AsyncOutcome.timedOut
termination_by MAX_POLL_ATTEMPTS - attempt
decreasing_by omega

/-- Entry point: `_get_matrix_async` starts polling from attempt 0. -/
def getMatrixAsyncOutcome (states : Nat → PollState) : AsyncOutcome :=
  pollUntilDone states 0

/-- An `optimization_request` row as seen by the worker: its status, its JSON
result blob (abstracted to a string) and its error message
(`app/models/optimization_request.py`). -/
structure RequestRow where
  status : OptStatus
  result : Option String
  errorMessage : Option String
  deriving DecidableEq, Repr

/-- The database state touched by one worker run: the request row and the ids
of the `route` rows created for this request.  Each Route row is created
together with its RouteStop rows in one bulk insert, so the presence of a
route id stands for the presence of its stop rows as well. -/
structure WorkerDB where
  request : RequestRow
  routes : List Nat
  deriving DecidableEq, Repr

/-- Where, if anywhere, an exception interrupts the worker's try block:
`duringCompute` covers the load / matrix / solve / format steps
(`app/services/optimization.py`, lines 227-282), which write nothing;
`duringRouteCreate` covers a failure inside route persistence before the
route insert commits (e.g. a database error, or the upfront job-existence
check in `RouteStorage.store_routes`, lines 60-65). -/
inductive WorkerFailure
  | noInjectedFailure
  | duringCompute
  | duringRouteCreate
  deriving DecidableEq, Repr

/-- Modelled from the spec: `CRUDRoute.bulk_create_routes_with_stops` lives in
`app/crud/route.py`, which is not among the provided sources (only its caller
`RouteStorage.store_routes` is).  Spec section 4.6 says the Route Persister
writes one `Route` row per route of the solution together with its
`RouteStop` rows and commits them; modelled as appending the new route ids to
the route table. -/
def bulkCreateRoutesWithStops (routeTable : List Nat) (newRouteIds : List Nat) : List Nat :=
  routeTable ++ newRouteIds

/-- Embeds `run_optimization_worker` (`app/services/optimization.py`, lines 150-336).
Every CRUD call commits individually: (1) `update_status` commits
`status := processing`; (2) the compute steps write nothing; (3)
`store_result` commits the result blob onto the request row
(`app/crud/optimization_request.py`, lines 61-89); (4) `store_routes` commits
the Route/RouteStop rows and then calls
`job_crud.bulk_update_assignments(..., job_routes=...)` -- a keyword the
method does not accept (`app/crud/job.py`, line 181), so the call raises
`TypeError` whenever at least one job stop exists (`hasAssignedJobs`); (5) on
success `update_status` commits `status := completed`; the `except` branch
(lines 317-332) only commits `status := failed` plus the error message and
performs no rollback of commits already made. -/
def runOptimizationWorker (failure : WorkerFailure) (hasAssignedJobs : Bool)
    (resultBlob : String) (newRouteIds : List Nat) (db : WorkerDB) : WorkerDB :=
  let markFailed := fun (d : WorkerDB) (msg : String) =>
    { d with request :=
        { d.request with status := OptStatus.failed, errorMessage := some msg } }
  let db1 : WorkerDB :=
    { db with request := { db.request with status := OptStatus.processing } }
  match failure with
  | WorkerFailure.duringCompute => markFailed db1 "optimization step failed"
  | WorkerFailure.duringRouteCreate =>
      let db2 := { db1 with request := { db1.request with result := some resultBlob } }
      markFailed db2 "route persistence failed"
  | WorkerFailure.noInjectedFailure =>
      let db2 := { db1 with request := { db1.request with result := some resultBlob } }
      let db3 := { db2 with routes := bulkCreateRoutesWithStops db2.routes newRouteIds }
      if hasAssignedJobs then
        markFailed db3 "bulk_update_assignments() got an unexpected keyword argument"
      else
        { db3 with request := { db3.request with status := OptStatus.completed } }

/-- The atomicity property the claim states for a terminal worker state:
either `completed` with the result populated and Route/RouteStop rows
written, or `failed` with neither. -/
def atomicOutcome (db : WorkerDB) : Prop :=
  (db.request.status = OptStatus.completed ∧ db.request.result ≠ none ∧ db.routes ≠ []) ∨
  (db.request.status = OptStatus.failed ∧ db.request.result = none ∧ db.routes = [])

instance (db : WorkerDB) : Decidable (atomicOutcome db) := by
  unfold atomicOutcome
  exact instDecidableOr

/-- The job-stop extraction of `VRPSolver._extract_solution`
(`app/services/optimization_engine/solver.py`, lines 288-305): walking one
vehicle's node chain, every non-depot node index `n` contributes the stop
`self.data.jobs[n - 1].id`.  `jobIds` lists the ids of `data.jobs` in load
order, so matrix index `n` (with `1 ≤ n ≤ jobIds.length`) denotes
`jobIds[n - 1]`; the lookup is total on the index range the routing engine
produces. -/
def extractRouteStopJobIds (jobIds : List Nat) (nodeVisits : List Nat) : List Nat :=
  nodeVisits.filterMap fun n => jobIds[n - 1]?

/-- Embeds `VRPSolver._extract_solution`, lines 388-395: the assigned ids are those
appearing as stops over all vehicles. -/
def extractAssignedJobIds (jobIds : List Nat) (vehicleVisits : List (List Nat)) : List Nat :=
  (vehicleVisits.map (extractRouteStopJobIds jobIds)).flatten

/-- Embeds `VRPSolver._extract_solution`, lines 388-395:
`unassigned_jobs = list({job.id for job in data.jobs} - assigned_job_ids)`.
Embedded preserving the load order of `data.jobs`; Python iterates a set in
unspecified order and only the contents matter to the claims. -/
def unassignedJobIds (jobIds : List Nat) (assigned : List Nat) : List Nat :=
  jobIds.filter fun j => !assigned.contains j

/-- The job ids appearing in the formatted stop list of one route
(`ResultFormatter.format`, lines 69-102): a solver stop is kept iff its
`job_id` is found in the job map (and hence in the location index, whose
values are the positive matrix indexes); the two added depot entries carry
`job_id = None`. -/
def formattedRouteJobIds (jobIds : List Nat) (stopJobIds : List Nat) : List Nat :=
  stopJobIds.filter fun j => jobIds.contains j

/-- The job ids of the `unassigned_jobs` entries in the final result
(`ResultFormatter.format`, lines 199-206): one entry per solver unassigned
id. -/
def formattedUnassignedJobIds (unassigned : List Nat) : List Nat :=
  unassigned

/-- C1: the claim says every assigned job is updated in one bulk case-by-id
statement so that its status becomes `assigned`, its `assigned_to` the route's
driver, and its `route_id` the containing route's id.  The bulk statement in
`CRUDJob.bulk_update_assignments` sets only `status` and `assigned_to`:
evaluating it on a one-job table leaves `route_id` at NULL, and in general the
`route_id` column of every row is preserved.  (At runtime the situation is
worse still: `RouteStorage.store_routes` passes a `job_routes=` keyword that
the method does not accept, so the call raises `TypeError`.) -/
theorem bulk_update_assignments_never_sets_route_id :
    ((bulkUpdateAssignments [⟨5, 1, JobStatus.draft, none, none⟩] [5] [(5, 7)] 1).2 =
      [⟨5, 1, JobStatus.assigned, some 7, none⟩]) ∧
    ∀ (table : List JobRow) (jobIds : List Nat) (asg : List (Nat × Nat)) (tid : Nat),
      ((bulkUpdateAssignments table jobIds asg tid).2).map JobRow.routeId =
        table.map JobRow.routeId := by
  refine ⟨by decide, ?_⟩
  intro table jobIds asg tid
  unfold bulkUpdateAssignments
  split
  · rfl
  · simp only [List.map_map]
    induction table with
    | nil => rfl
    | cons r rest ih =>
        simp only [List.map_cons, Function.comp_apply, ih, List.cons.injEq, and_true]
        split <;> rfl

/-- C4: the claim (and the spec invariant) says stored stop rows have
contiguous `sequence_order` values `0..n-1` with `depot_start` first,
`depot_end` last and `job` stops in between.  For a formatted route with a
single job stop, `RouteStorage.store_routes` produces sequence orders
`[0, 2, 2]`: the job stop receives the 1-based enumeration position of the
formatted list (which still counts the depot entries), and the `depot_end` row
collides with the last job row.  The spec invariant fails on this output. -/
theorem store_routes_sequence_orders_not_contiguous :
    (stopsCreateData [⟨none⟩, ⟨some 41⟩, ⟨none⟩]).map StopCreate.sequenceOrder = [0, 2, 2] ∧
    ¬ specStopSequence (stopsCreateData [⟨none⟩, ⟨some 41⟩, ⟨none⟩]) := by
  constructor
  · rfl
  · decide

/-- C3 counterexample: submitting while the worker queue is unreachable on an
empty store returns HTTP 503 but leaves the freshly inserted `queued` row in
the request store, contradicting the claim that no queued row remains. -/
theorem submitter_queue_down_counterexample :
    createOptimizationRequest false 1 ⟨[], []⟩ =
      (Except.error 503, ⟨[(1, OptStatus.queued)], []⟩) := by
  rfl

/-- C3 amended: when the worker queue is unreachable the submitter raises
`ServiceUnavailable` (HTTP 503) and does not enqueue anything, but the
`queued` row inserted before the enqueue attempt remains in the request store
(there is no compensating delete). -/
theorem submitter_queue_down_keeps_queued_row (newId : Nat) (st : SubmitState) :
    (createOptimizationRequest false newId st).1 = Except.error 503 ∧
    (newId, OptStatus.queued) ∈ (createOptimizationRequest false newId st).2.requests ∧
    (createOptimizationRequest false newId st).2.queue = st.queue := by
  refine ⟨rfl, ?_, rfl⟩
  simp [createOptimizationRequest]

/-- C7 counterexample: with the configuration naming the TomTom provider, the
factory selects TomTom, yet the worker's matrix computation still constructs
the GraphHopper client, so the two differ -- the matrix step does not use the
provider named by the configuration. -/
theorem worker_matrix_client_ignores_configuration :
    workerMatrixClient "tomtom" = Provider.graphhopper ∧
    getRoutingClient "tomtom" = Provider.tomtom ∧
    Provider.graphhopper ≠ Provider.tomtom := by
  exact ⟨rfl, by decide, by decide⟩

/-- C7 amended: the polyline fetch goes through the configuration-driven
factory `get_routing_client`, but the worker's matrix computation always uses
the GraphHopper client regardless of the configured provider. -/
theorem polyline_configured_matrix_hardcoded (cfg : String) :
    formatterPolylineClient cfg = getRoutingClient cfg ∧
    workerMatrixClient cfg = Provider.graphhopper :=
  ⟨rfl, rfl⟩

/-- C8 counterexample: a job with a 600-minute service duration and a single
team member working 09:00-17:00 is given the reason string
`"Service duration (600 min) exceeds all team member's shift lengths"`, which
interpolates the duration and therefore differs from the exact string the
claim prescribes for the second branch. -/
theorem unassigned_reason_interpolates_duration :
    analyzeUnassignedReason ⟨none, none, some 600⟩ [⟨some ⟨9, 0, 0⟩, some ⟨17, 0, 0⟩⟩] =
      "Service duration (600 min) exceeds all team member\x27s shift lengths" ∧
    "Service duration (600 min) exceeds all team member\x27s shift lengths" ≠
      "Service duration exceeds all team member\x27s shift lengths" := by
  exact ⟨by decide, by decide⟩

/-- C8 amended: the reason is computed by the three-branch heuristic in claim
order; the first and third branches return exactly the claimed strings, while
the second returns the claimed sentence with `(X min)` interpolated after
`Service duration`, where `X` is the job's service duration in minutes. -/
theorem analyze_unassigned_reason_three_branches (job : JobView)
    (teamMembers : List TeamMemberView) :
    analyzeUnassignedReason job teamMembers =
      if windowOutsideAllWorkingHours job teamMembers then
        "Time window is outside of all team member\x27s working hours"
      else if serviceExceedsAllShifts job teamMembers then
        "Service duration (" ++ toString (job.serviceDuration.getD 0) ++
          " min) exceeds all team member\x27s shift lengths"
      else
        "Could not be visited within constraints" := by
  unfold analyzeUnassignedReason windowOutsideAllWorkingHours serviceExceedsAllShifts
  cases job.timeWindowStart with
  | none =>
      by_cases hs : (job.serviceDuration.getD 0) * 60 > 0 <;>
        cases hf : canFitInAnyShift ((job.serviceDuration.getD 0) * 60) teamMembers <;>
          simp [hs, hf]
  | some ws =>
      cases job.timeWindowEnd with
      | none =>
          by_cases hs : (job.serviceDuration.getD 0) * 60 > 0 <;>
            cases hf : canFitInAnyShift ((job.serviceDuration.getD 0) * 60) teamMembers <;>
              simp [hs, hf]
      | some we =>
          cases hb : canBeServedByAny (timeToSeconds ws) (timeToSeconds we) teamMembers <;>
            by_cases hs : (job.serviceDuration.getD 0) * 60 > 0 <;>
              cases hf : canFitInAnyShift ((job.serviceDuration.getD 0) * 60) teamMembers <;>
                simp [hb, hs, hf]

/-- C6: the claim says a driver whose break window fits `break_duration` gets
a mandatory break interval of exactly that duration, and one whose window is
too tight has the break dropped instead of making the model infeasible.  In
the source, any driver with both break window fields makes
`add_break_constraints` raise `AttributeError` at the
`team_member.break_duration` read (constraint_builder.py, line 166): the
`TeamMember` ORM model declares no such attribute -- only migration
`ad1b2a2993d6` adds the database column -- so neither branch is reached and
the whole optimization fails.  The unreached remainder of the function,
applied to the column values the claim supposes, would compute exactly the
claimed interval and skip decisions. -/
theorem add_break_constraints_attribute_error :
    addBreakConstraint ⟨some ⟨12, 0, 0⟩, some ⟨14, 0, 0⟩⟩ =
      Except.error breakDurationAttributeError ∧
    addBreakConstraintBody (some 45) ⟨12, 0, 0⟩ ⟨14, 0, 0⟩ =
      BreakDecision.interval 43200 47700 2700 ∧
    addBreakConstraintBody (some 45) ⟨12, 0, 0⟩ ⟨12, 30, 0⟩ =
      BreakDecision.skippedInvalidWindow := by
  exact ⟨rfl, rfl, rfl⟩

/-- C10: the claim says a driver with a break window but null
`break_duration` gets a 30-minute default break, scheduled by the constraint
model and reported by the break-info extraction.  In the source the default
is never substituted: both `break_duration or 30` expressions are preceded by
the attribute read itself, which raises `AttributeError`
(constraint_builder.py, line 166; solver.py, line 455, reraised by the
handler rereading it at line 540), so the request fails and no break is
scheduled or reported.  The unreached default logic, applied to a null
column value, would compute the claimed 1800-second interval. -/
theorem default_break_never_reached :
    addBreakConstraint ⟨some ⟨12, 0, 0⟩, some ⟨13, 0, 0⟩⟩ =
      Except.error breakDurationAttributeError ∧
    extractBreakInfo ⟨some ⟨12, 0, 0⟩, some ⟨13, 0, 0⟩⟩ [] =
      Except.error breakDurationAttributeError ∧
    addBreakConstraintBody none ⟨12, 0, 0⟩ ⟨13, 0, 0⟩ =
      BreakDecision.interval 43200 45000 1800 := by
  exact ⟨rfl, rfl, rfl⟩


/-- One poll on a still-running job advances to the next attempt. -/
theorem pollUntilDone_step (states : Nat → PollState) (a : Nat)
    (ha : a < MAX_POLL_ATTEMPTS) (hr : states a = PollState.running) :
    pollUntilDone states a = pollUntilDone states (a + 1) := by
  rw [pollUntilDone.eq_def, dif_pos ha, hr]

/-- If the job never leaves the running state within the attempt budget, the
loop times out, from any starting attempt. -/
theorem pollUntilDone_timeout (states : Nat → PollState)
    (hall : ∀ i, i < MAX_POLL_ATTEMPTS → states i = PollState.running) :
    ∀ a, pollUntilDone states a = AsyncOutcome.timedOut := by
  have key : ∀ k a, MAX_POLL_ATTEMPTS - a ≤ k →
      pollUntilDone states a = AsyncOutcome.timedOut := by
    intro k
    induction k with
    | zero =>
        intro a ha
        rw [pollUntilDone.eq_def, dif_neg (by omega)]
    | succ k ih =>
        intro a ha
        by_cases h : a < MAX_POLL_ATTEMPTS
        · rw [pollUntilDone_step states a h (hall a h)]
          exact ih (a + 1) (by omega)
        · rw [pollUntilDone.eq_def, dif_neg h]
  intro a
  exact key MAX_POLL_ATTEMPTS a (by omega)

/-- If the job first reports a terminal state at attempt `k` within the
budget, the loop reaches that attempt and reacts to it: download after
`k + 1` polls (each preceded by one poll-interval sleep) on `Completed`, an
error on `Failed`. -/
theorem pollUntilDone_reaches (states : Nat → PollState) (k : Nat)
    (hk : k < MAX_POLL_ATTEMPTS) :
    ∀ a, a ≤ k → (∀ i, a ≤ i → i < k → states i = PollState.running) →
      pollUntilDone states a =
        if states k = PollState.completed then
          AsyncOutcome.downloaded (k + 1) ((k + 1) * POLL_INTERVAL_SECONDS)
        else if states k = PollState.failed then AsyncOutcome.jobFailed
        else pollUntilDone states (k + 1) := by
  have key : ∀ n a, k - a ≤ n → a ≤ k →
      (∀ i, a ≤ i → i < k → states i = PollState.running) →
      pollUntilDone states a =
        if states k = PollState.completed then
          AsyncOutcome.downloaded (k + 1) ((k + 1) * POLL_INTERVAL_SECONDS)
        else if states k = PollState.failed then AsyncOutcome.jobFailed
        else pollUntilDone states (k + 1) := by
    intro n
    induction n with
    | zero =>
        intro a hn hak _hrun
        have hak' : a = k := by omega
        subst hak'
        rw [pollUntilDone.eq_def, dif_pos hk]
        cases hs : states a <;> simp [hs]
    | succ n ih =>
        intro a hn hak hrun
        by_cases heq : a = k
        · subst heq
          rw [pollUntilDone.eq_def, dif_pos hk]
          cases hs : states a <;> simp [hs]
        · have hlt : a < k := by omega
          rw [pollUntilDone_step states a (by omega) (hrun a (by omega) hlt)]
          exact ih (a + 1) (by omega) (by omega) (fun i h1 h2 => hrun i (by omega) h2)
  exact fun a hak hrun => key (k - a) a (by omega) hak hrun

/-- C9: with locations `1 + numJobLocations`, the TomTom adapter uses the
synchronous matrix endpoint exactly when the location count is at most 14 and
the asynchronous one otherwise; the asynchronous path polls the submitted
job's status, sleeping 2 seconds before each of at most 60 polls, downloads
the result as soon as a poll reports `Completed`, raises on `Failed`, and
times out if 60 polls see neither. -/
theorem tomtom_sync_threshold_and_polling :
    (∀ numJobLocations : Nat,
      (chooseMatrixEndpoint numJobLocations = MatrixEndpoint.sync ↔
        1 + numJobLocations ≤ 14) ∧
      (chooseMatrixEndpoint numJobLocations = MatrixEndpoint.async ↔
        1 + numJobLocations > 14)) ∧
    (∀ (states : Nat → PollState) (k : Nat), k < 60 →
      (∀ i, i < k → states i = PollState.running) →
      states k = PollState.completed →
      getMatrixAsyncOutcome states = AsyncOutcome.downloaded (k + 1) (2 * (k + 1))) ∧
    (∀ (states : Nat → PollState) (k : Nat), k < 60 →
      (∀ i, i < k → states i = PollState.running) →
      states k = PollState.failed →
      getMatrixAsyncOutcome states = AsyncOutcome.jobFailed) ∧
    (∀ states : Nat → PollState,
      (∀ i, i < 60 → states i = PollState.running) →
      getMatrixAsyncOutcome states = AsyncOutcome.timedOut) := by
  refine ⟨?_, ?_, ?_, ?_⟩
  · intro n
    constructor
    · unfold chooseMatrixEndpoint SYNC_LOCATION_THRESHOLD
      split <;> simp_all
    · unfold chooseMatrixEndpoint SYNC_LOCATION_THRESHOLD
      split <;> simp_all
  · intro states k hk hrun hc
    have h := pollUntilDone_reaches states k hk 0 (Nat.zero_le k)
      (fun i _ h2 => hrun i h2)
    rw [getMatrixAsyncOutcome, h, if_pos hc]
    unfold POLL_INTERVAL_SECONDS
    rw [Nat.mul_comm]
  · intro states k hk hrun hf
    have h := pollUntilDone_reaches states k hk 0 (Nat.zero_le k)
      (fun i _ h2 => hrun i h2)
    rw [getMatrixAsyncOutcome, h, if_neg (by rw [hf]; decide), if_pos hf]
  · intro states hall
    exact pollUntilDone_timeout states hall 0

/-- C9 witness: 13 jobs (14 locations) use the sync endpoint and 14 jobs (15
locations) the async one; a job completing on the fourth poll is downloaded
after 4 polls and 8 seconds of sleeping; a job failing on the first poll
raises; a job never completing times out. -/
theorem tomtom_sync_threshold_and_polling_witness :
    chooseMatrixEndpoint 13 = MatrixEndpoint.sync ∧
    chooseMatrixEndpoint 14 = MatrixEndpoint.async ∧
    getMatrixAsyncOutcome (fun i => if i = 3 then PollState.completed else PollState.running) =
      AsyncOutcome.downloaded 4 8 ∧
    getMatrixAsyncOutcome (fun i => if i = 0 then PollState.failed else PollState.running) =
      AsyncOutcome.jobFailed ∧
    getMatrixAsyncOutcome (fun _ => PollState.running) = AsyncOutcome.timedOut := by
  have h := tomtom_sync_threshold_and_polling
  refine ⟨(h.1 13).1.mpr (by decide), (h.1 14).2.mpr (by decide), ?_, ?_, ?_⟩
  · exact h.2.1 (fun i => if i = 3 then PollState.completed else PollState.running) 3
      (by decide) (fun i hi => by interval_cases i <;> decide) (by decide)
  · exact h.2.2.1 (fun i => if i = 0 then PollState.failed else PollState.running) 0
      (by decide) (fun i hi => by omega) (by decide)
  · exact h.2.2.2 (fun _ => PollState.running) (fun i _ => rfl)

/-- C2 counterexample: a worker run that solves and stores its result but then
fails inside route persistence (here: the unconditional `TypeError` raised by
the `job_routes=` keyword passed to `bulk_update_assignments`) leaves the
request `failed` with its result still populated and the Route/RouteStop rows
still present -- a state the claimed atomicity forbids. -/
theorem worker_partial_writes_counterexample :
    (runOptimizationWorker WorkerFailure.noInjectedFailure true "solved" [1]
        ⟨⟨OptStatus.queued, none, none⟩, []⟩).request.status = OptStatus.failed ∧
    (runOptimizationWorker WorkerFailure.noInjectedFailure true "solved" [1]
        ⟨⟨OptStatus.queued, none, none⟩, []⟩).request.result = some "solved" ∧
    (runOptimizationWorker WorkerFailure.noInjectedFailure true "solved" [1]
        ⟨⟨OptStatus.queued, none, none⟩, []⟩).routes = [1] ∧
    ¬ atomicOutcome (runOptimizationWorker WorkerFailure.noInjectedFailure true "solved" [1]
        ⟨⟨OptStatus.queued, none, none⟩, []⟩) := by
  refine ⟨rfl, rfl, rfl, ?_⟩
  decide

/-- C2 amended: every worker run ends in a terminal status -- `completed` (with
the result populated and the routes written) exactly when no step fails and
no job stop triggers the assignment-update `TypeError`, and `failed`
otherwise -- but the individually committed writes preceding a failure are not
rolled back: a compute-step failure leaves neither result nor routes, while a
failure during or after route persistence leaves the result blob (and, once
the route insert has committed, the Route/RouteStop rows) on the failed
request. -/
theorem worker_commit_boundaries (hasJobs : Bool) (blob : String)
    (newRouteIds : List Nat) (db : WorkerDB)
    (hres : db.request.result = none) (hroutes : db.routes = []) :
    ((runOptimizationWorker WorkerFailure.duringCompute hasJobs blob newRouteIds
        db).request.status = OptStatus.failed ∧
      (runOptimizationWorker WorkerFailure.duringCompute hasJobs blob newRouteIds
        db).request.result = none ∧
      (runOptimizationWorker WorkerFailure.duringCompute hasJobs blob newRouteIds
        db).routes = []) ∧
    ((runOptimizationWorker WorkerFailure.duringRouteCreate hasJobs blob newRouteIds
        db).request.status = OptStatus.failed ∧
      (runOptimizationWorker WorkerFailure.duringRouteCreate hasJobs blob newRouteIds
        db).request.result = some blob ∧
      (runOptimizationWorker WorkerFailure.duringRouteCreate hasJobs blob newRouteIds
        db).routes = []) ∧
    ((runOptimizationWorker WorkerFailure.noInjectedFailure true blob newRouteIds
        db).request.status = OptStatus.failed ∧
      (runOptimizationWorker WorkerFailure.noInjectedFailure true blob newRouteIds
        db).request.result = some blob ∧
      (runOptimizationWorker WorkerFailure.noInjectedFailure true blob newRouteIds
        db).routes = newRouteIds) ∧
    ((runOptimizationWorker WorkerFailure.noInjectedFailure false blob newRouteIds
        db).request.status = OptStatus.completed ∧
      (runOptimizationWorker WorkerFailure.noInjectedFailure false blob newRouteIds
        db).request.result = some blob ∧
      (runOptimizationWorker WorkerFailure.noInjectedFailure false blob newRouteIds
        db).routes = newRouteIds) := by
  unfold runOptimizationWorker bulkCreateRoutesWithStops
  simp [hres, hroutes]

/-- C2 witness: on a fresh queued request, a failure during route persistence
leaves the failed request with its result populated, and a run with no
failures and no assigned jobs completes. -/
theorem worker_commit_boundaries_witness :
    (runOptimizationWorker WorkerFailure.duringRouteCreate true "solved" [1]
        ⟨⟨OptStatus.queued, none, none⟩, []⟩).request.result = some "solved" ∧
    (runOptimizationWorker WorkerFailure.noInjectedFailure false "solved" [1]
        ⟨⟨OptStatus.queued, none, none⟩, []⟩).request.status = OptStatus.completed := by
  have h := worker_commit_boundaries true "solved" [1]
    ⟨⟨OptStatus.queued, none, none⟩, []⟩ rfl rfl
  exact ⟨h.2.1.2.1, h.2.2.2.1⟩

/-- Every id extracted from a node chain is one of the loaded job ids. -/
theorem extractRouteStopJobIds_subset (jobIds : List Nat) (ns : List Nat) :
    ∀ j ∈ extractRouteStopJobIds jobIds ns, j ∈ jobIds := by
  intro j hj
  unfold extractRouteStopJobIds at hj
  obtain ⟨n, _, hn⟩ := List.mem_filterMap.mp hj
  exact List.getElem?_mem hn

/-- Extraction distributes over flattening the per-vehicle visit lists. -/
theorem extractAssignedJobIds_eq_flatten (jobIds : List Nat)
    (visits : List (List Nat)) :
    extractAssignedJobIds jobIds visits =
      extractRouteStopJobIds jobIds visits.flatten := by
  unfold extractAssignedJobIds extractRouteStopJobIds
  induction visits with
  | nil => rfl
  | cons v vs ih =>
      simp only [List.map_cons, List.flatten_cons, List.filterMap_append]
      rw [ih]

/-- With distinct loaded job ids and distinct in-range node visits, the
extracted stop ids are distinct. -/
theorem extractRouteStopJobIds_nodup (jobIds : List Nat) (hnd : jobIds.Nodup) :
    ∀ ns : List Nat, ns.Nodup → (∀ n ∈ ns, 1 ≤ n ∧ n ≤ jobIds.length) →
      (extractRouteStopJobIds jobIds ns).Nodup := by
  intro ns
  induction ns with
  | nil => exact fun _ _ => List.nodup_nil
  | cons n ns ih =>
      intro hndup hvalid
      have hn := hvalid n (List.mem_cons_self n ns)
      have hidx : n - 1 < jobIds.length := by omega
      have hsome : jobIds[n - 1]? = some jobIds[n - 1] := List.getElem?_eq_getElem hidx
      have hstep : extractRouteStopJobIds jobIds (n :: ns) =
          jobIds[n - 1] :: extractRouteStopJobIds jobIds ns := by
        unfold extractRouteStopJobIds
        simp [List.filterMap_cons, hsome]
      rw [hstep]
      refine List.nodup_cons.mpr ⟨?_, ih (List.Nodup.of_cons hndup)
        (fun m hm => hvalid m (List.mem_cons_of_mem n hm))⟩
      intro hmem
      unfold extractRouteStopJobIds at hmem
      obtain ⟨m, hmns, hms⟩ := List.mem_filterMap.mp hmem
      have hmv := hvalid m (List.mem_cons_of_mem n hmns)
      have hnm : n - 1 = m - 1 :=
        List.getElem?_inj hidx hnd (by rw [hsome, hms])
      have hnm' : n = m := by omega
      subst hnm'
      exact (List.nodup_cons.mp hndup).1 hmns

/-- C5: for a solver assignment whose node visits are in range and pairwise
distinct across all vehicles (the routing engine visits every node at most
once), the job ids appearing on the formatted routes' stops together with the
formatted unassigned ids form exactly the loaded job id set, with no id
repeated and none from outside the input. -/
theorem result_job_ids_partition (jobIds : List Nat)
    (vehicleVisits : List (List Nat)) (hnd : jobIds.Nodup)
    (hvalid : ∀ n ∈ vehicleVisits.flatten, 1 ≤ n ∧ n ≤ jobIds.length)
    (hdisj : vehicleVisits.flatten.Nodup) :
    (((vehicleVisits.map (extractRouteStopJobIds jobIds)).map
        (formattedRouteJobIds jobIds)).flatten ++
      formattedUnassignedJobIds
        (unassignedJobIds jobIds (extractAssignedJobIds jobIds vehicleVisits))).Perm
      jobIds ∧
    (((vehicleVisits.map (extractRouteStopJobIds jobIds)).map
        (formattedRouteJobIds jobIds)).flatten ++
      formattedUnassignedJobIds
        (unassignedJobIds jobIds (extractAssignedJobIds jobIds vehicleVisits))).Nodup := by
  have hform : ∀ ns : List Nat,
      formattedRouteJobIds jobIds (extractRouteStopJobIds jobIds ns) =
        extractRouteStopJobIds jobIds ns := by
    intro ns
    apply List.filter_eq_self.mpr
    intro a ha
    simpa using extractRouteStopJobIds_subset jobIds ns a ha
  have hmaps : (vehicleVisits.map (extractRouteStopJobIds jobIds)).map
      (formattedRouteJobIds jobIds) = vehicleVisits.map (extractRouteStopJobIds jobIds) := by
    rw [List.map_map]
    exact List.map_congr_left (fun ns _ => hform ns)
  have hassigned : ((vehicleVisits.map (extractRouteStopJobIds jobIds)).map
      (formattedRouteJobIds jobIds)).flatten = extractAssignedJobIds jobIds vehicleVisits := by
    rw [hmaps]
    rfl
  unfold formattedUnassignedJobIds
  rw [hassigned]
  set assigned := extractAssignedJobIds jobIds vehicleVisits with hasg
  have hsub : ∀ j ∈ assigned, j ∈ jobIds := by
    intro j hj
    rw [hasg, extractAssignedJobIds_eq_flatten] at hj
    exact extractRouteStopJobIds_subset jobIds vehicleVisits.flatten j hj
  have hadup : assigned.Nodup := by
    rw [hasg, extractAssignedJobIds_eq_flatten]
    exact extractRouteStopJobIds_nodup jobIds hnd vehicleVisits.flatten hdisj hvalid
  have hlnd : (assigned ++ unassignedJobIds jobIds assigned).Nodup := by
    refine List.Nodup.append hadup (List.Nodup.filter _ hnd) ?_
    intro a haa hau
    unfold unassignedJobIds at hau
    have hpa := (List.mem_filter.mp hau).2
    simp only [Bool.not_eq_true'] at hpa
    have hna : a ∉ assigned := by simpa using hpa
    exact hna haa
  have hperm : (assigned ++ unassignedJobIds jobIds assigned).Perm jobIds := by
    refine (List.perm_ext_iff_of_nodup hlnd hnd).mpr ?_
    intro a
    constructor
    · intro ha
      rcases List.mem_append.mp ha with h | h
      · exact hsub a h
      · exact (List.mem_filter.mp h).1
    · intro ha
      by_cases hin : a ∈ assigned
      · exact List.mem_append.mpr (Or.inl hin)
      · refine List.mem_append.mpr (Or.inr ?_)
        refine List.mem_filter.mpr ⟨ha, ?_⟩
        simpa using hin
  exact ⟨hperm, hlnd⟩

/-- C5 witness: with loaded job ids `[10, 20, 30]` and two vehicles visiting
nodes 2 and 3 respectively, the formatted stop ids `[20, 30]` plus the
unassigned `[10]` are a duplicate-free permutation of the loaded ids. -/
theorem result_job_ids_partition_witness :
    ((([[2], [3]].map (extractRouteStopJobIds [10, 20, 30])).map
        (formattedRouteJobIds [10, 20, 30])).flatten ++
      formattedUnassignedJobIds
        (unassignedJobIds [10, 20, 30]
          (extractAssignedJobIds [10, 20, 30] [[2], [3]]))).Perm
      [10, 20, 30] ∧
    ((([[2], [3]].map (extractRouteStopJobIds [10, 20, 30])).map
        (formattedRouteJobIds [10, 20, 30])).flatten ++
      formattedUnassignedJobIds
        (unassignedJobIds [10, 20, 30]
          (extractAssignedJobIds [10, 20, 30] [[2], [3]]))).Nodup :=
  result_job_ids_partition [10, 20, 30] [[2], [3]] (by decide) (by decide) (by decide)

end Syncnox
